import Mathlib

/-!
Shallow embedding of `entity.py` (metehan777/entity-analyzer-seo).

The script is a linear pipeline: fetch a URL, run an external NLP analysis
(entities + entity sentiment), enrich each entity through a knowledge-graph
lookup, and render a text report to `entities_analysis.txt`.

Modelling conventions:
* The three external services are oracles passed as function arguments.
  A Python call that may raise is an `Except String` value: `.error msg`
  models a raised exception carrying `msg`.
* Python floats (salience, sentiment score/magnitude) are modelled as exact
  rationals `ℚ`; the claims under study depend only on comparisons and on
  which text is emitted, not on binary-float rounding.
* Python dicts used as records become structures; an absent key is `none`.
  `dict` iteration order (insertion order) is a `List` of pairs.
* Writing the output file is modelled by the `.ok` payload of `main`:
  `entity.py` opens the file only after `analyze_content` returns, so a run
  that errors before that point creates no file, i.e. returns `.error`.
-/

namespace EntityPy

/-- Sentiment of one entity as returned by the NLP service:
`sentiment.score` and `sentiment.magnitude` in the Python response. -/
structure Sentiment where
  magnitude : ℚ
  score : ℚ
deriving DecidableEq, Repr

/-- One element of `vertex_analysis['entities'].entities`: the fields of the
NLP entity that `analyze_content` reads.  `type_` models
`language_v1.Entity.Type(entity.type_).name` (already a string there);
`mentions` models the list `entity.mentions`, of which only the length is
used. -/
structure RawEntity where
  name : String
  type_ : String
  salience : ℚ
  metadata : List (String × String)
  mentions : List Unit
deriving DecidableEq, Repr

/-- One element of `vertex_analysis['entity_sentiment'].entities`. -/
structure SentimentEntity where
  sentiment : Sentiment
deriving DecidableEq, Repr

/-- The combined result of `analyze_with_vertex`: the entity list and the
entity-sentiment list of the two NLP calls. -/
structure VertexAnalysis where
  entities : List RawEntity
  entity_sentiment : List SentimentEntity
deriving DecidableEq, Repr

/-- The `item['result']` object of a knowledge-graph response, restricted to
the keys the report renderer reads: `description`, `@type` (here `atType`)
and `detailedDescription.articleBody` (here `detailedDescription`).  Each is
`none` when the key is absent. -/
structure KGInfo where
  description : Option String
  atType : Option String
  detailedDescription : Option String
deriving DecidableEq, Repr

/-- One element of `itemListElement` in a knowledge-graph response;
`result` is `none` when the `result` key is absent. -/
structure KGItem where
  result : Option KGInfo
deriving DecidableEq, Repr

/-- A decoded knowledge-graph JSON response.  `itemListElement = none`
models a JSON object without the `itemListElement` key (for example an API
error body). -/
structure KGResponse where
  itemListElement : Option (List KGItem)
deriving DecidableEq, Repr

/-- The per-entity record `entity_info` built by `analyze_content`.
`knowledge_graph = none` models the key being absent from the dict. -/
structure EntityInfo where
  name : String
  type_ : String
  salience : ℚ
  metadata : List (String × String)
  mentions : Nat
  sentiment : Option Sentiment
  knowledge_graph : Option KGInfo
deriving DecidableEq, Repr

/-- The dict returned by `analyze_content`. -/
structure AnalysisResult where
  url : String
  entities_data : List EntityInfo
  entity_count : Nat
deriving DecidableEq, Repr

/-- `extract_content`: the body (HTTP GET, HTML parsing, text cleaning) is
delegated to external libraries, modelled by the oracle `fetch`; the
function's own logic is the `try/except` wrapper that re-raises any failure
as `Exception("Error extracting content from URL: ...")`. -/
def extract_content (fetch : String → Except String String) (url : String) :
    Except String String :=
  match fetch url with
  | .ok text => .ok text
  | .error e => .error ("Error extracting content from URL: " ++ e)

/-- `query_knowledge_graph`: issues the HTTP request and decodes the JSON
body with no exception handling of its own, so it is exactly the lookup
oracle: a raise inside `requests.get` or `response.json()` propagates. -/
def query_knowledge_graph (kg : String → Except String KGResponse)
    (entity : String) : Except String KGResponse :=
  kg entity

/-- The knowledge-graph attachment test of `analyze_content`:
`if 'itemListElement' in kg_result and kg_result['itemListElement']:` (a
missing key or an empty list both fail the test), then
`item = kg_result['itemListElement'][0]`, then `if 'result' in item`. -/
def kgExtract (kg_result : KGResponse) : Option KGInfo :=
  match kg_result.itemListElement with
  | some (item :: _) => item.result
  | _ => none

/-- The `for entity in vertex_analysis['entities'].entities` loop of
`analyze_content`: builds `entity_info` for each raw entity (reading
sentiment from index 0 of the sentiment-entity list on every iteration),
performs the knowledge-graph lookup, appends to `entities_data` and adds
the name to the set `found_entities`.  An exception from a lookup
propagates, aborting the loop. -/
def processEntities (kg : String → Except String KGResponse)
    (sentimentEntities : List SentimentEntity) :
    List RawEntity → Except String (List EntityInfo × Finset String)
  | [] => .ok ([], ∅)
  | e :: rest =>
    match query_knowledge_graph kg e.name with
    | .error msg => .error msg
    | .ok kg_result =>
      match processEntities kg sentimentEntities rest with
      | .error msg => .error msg
      | .ok (entities_data, found_entities) =>
        .ok ({ name := e.name
               type_ := e.type_
               salience := e.salience
               metadata := e.metadata
               mentions := e.mentions.length
               sentiment :=
                 match sentimentEntities with
                 | s0 :: _ => some s0.sentiment
                 | [] => none
               knowledge_graph := kgExtract kg_result } :: entities_data,
             insert e.name found_entities)

/-- `analyze_content`: extract the page text, run the NLP analysis, process
every entity, and return the result dict with
`entity_count = len(found_entities)`. -/
def analyze_content (fetch : String → Except String String)
    (vertex : String → Except String VertexAnalysis)
    (kg : String → Except String KGResponse)
    (url : String) : Except String AnalysisResult :=
  match extract_content fetch url with
  | .error msg => .error msg
  | .ok content =>
    match vertex content with
    | .error msg => .error msg
    | .ok vertex_analysis =>
      match processEntities kg vertex_analysis.entity_sentiment
          vertex_analysis.entities with
      | .error msg => .error msg
      | .ok (entities_data, found_entities) =>
        .ok { url := url
              entities_data := entities_data
              entity_count := found_entities.card }

/-- Python's fixed-point formatting `q:.{prec}f`: the value scaled by
`10 ^ prec` and rounded to the nearest integer, printed with a decimal
point and exactly `prec` fractional digits. -/
def formatFixed (q : ℚ) (prec : Nat) : String :=
  let scaled : ℤ := round (q * (10 : ℚ) ^ prec)
  let sign := if scaled < 0 then "-" else ""
  let n := scaled.natAbs
  sign ++ toString (n / 10 ^ prec) ++ "." ++
    (toString (10 ^ prec + n % 10 ^ prec)).drop 1

/-- Insert one entity into a list already sorted by non-increasing salience,
placing it before the first element whose salience does not exceed its own:
with `sortBySalience` below this realises Python's stable
`sorted(..., key=lambda x: x['salience'], reverse=True)`. -/
def insertBySalience (e : EntityInfo) : List EntityInfo → List EntityInfo
  | [] => [e]
  | x :: xs =>
    if x.salience ≤ e.salience then e :: x :: xs
    else x :: insertBySalience e xs

/-- The stable descending-by-salience sort used on `results['entities_data']`
in `main` (Python's `sorted` is stable; insertion sort with
`insertBySalience` computes the same arrangement). -/
def sortBySalience : List EntityInfo → List EntityInfo
  | [] => []
  | x :: xs => insertBySalience x (sortBySalience xs)

/-- The body of `for entity in sorted_entities:` in `main`: the sequence of
`f.write` calls for one entity, modelled as appending to the accumulated
file content `acc`. -/
def writeEntity (acc : String) (entity : EntityInfo) : String :=
  let acc := acc ++ "\nEntity: " ++ entity.name ++ "\n"
  let acc := acc ++ "Type: " ++ entity.type_ ++ "\n"
  let acc := acc ++ "Salience Score: " ++ formatFixed entity.salience 4 ++ "\n"
  let acc := acc ++ "Number of Mentions: " ++ toString entity.mentions ++ "\n"
  let acc :=
    match entity.sentiment with
    | some s =>
      acc ++ "Sentiment Score: " ++ formatFixed s.score 2 ++ "\n"
          ++ "Sentiment Magnitude: " ++ formatFixed s.magnitude 2 ++ "\n"
    | none => acc
  let acc :=
    match entity.metadata with
    | [] => acc
    | _ =>
      entity.metadata.foldl
        (fun a kv => a ++ "  " ++ kv.1 ++ ": " ++ kv.2 ++ "\n")
        (acc ++ "Metadata:\n")
  let acc :=
    match entity.knowledge_graph with
    | some kg_info =>
      let acc := acc ++ "Knowledge Graph Information:\n"
      let acc :=
        match kg_info.description with
        | some d => acc ++ "  Description: " ++ d ++ "\n"
        | none => acc
      let acc :=
        match kg_info.atType with
        | some t => acc ++ "  Type: " ++ t ++ "\n"
        | none => acc
      match kg_info.detailedDescription with
      | some a => acc ++ "  Detailed Description: " ++ a ++ "\n"
      | none => acc
    | none => acc
  acc ++ String.mk (List.replicate 40 '-') ++ "\n"

/-- The file-writing block of `main`: header lines, total count, detailed
header, then one block per entity in salience-sorted order.  The returned
string is the full content of `entities_analysis.txt`. -/
def writeReport (results : AnalysisResult) : String :=
  let acc := ""
  let acc := acc ++ "Analysis Results for " ++ results.url ++ "\n"
  let acc := acc ++ String.mk (List.replicate 50 '=') ++ "\n\n"
  let acc := acc ++ "Total Entities Found: " ++ toString results.entity_count ++ "\n\n"
  let acc := acc ++ "Detailed Entity Analysis:\n"
  let acc := acc ++ String.mk (List.replicate 50 '=') ++ "\n"
  let sorted_entities := sortBySalience results.entities_data
  sorted_entities.foldl writeEntity acc

/-- `main`, for a given input URL: run `analyze_content` and, when it
succeeds, write the report file.  `.ok content` means
`entities_analysis.txt` was created with `content`; `.error msg` means an
exception propagated before the file was opened, so no file exists. -/
def main (fetch : String → Except String String)
    (vertex : String → Except String VertexAnalysis)
    (kg : String → Except String KGResponse)
    (url : String) : Except String String :=
  match analyze_content fetch vertex kg url with
  | .error msg => .error msg
  | .ok results => .ok (writeReport results)

/-! ### Concrete sample data for examples and witnesses -/

/-- A fetch oracle that always succeeds with a fixed page text. -/
def okFetch : String → Except String String := fun _ => .ok "page text"

/-- A fetch oracle whose request raises (unreachable host). -/
def badFetch : String → Except String String := fun _ => .error "unreachable host"

/-- A knowledge-graph oracle returning a decoded JSON body without
`itemListElement` (the shape of an API error body). -/
def noKG : String → Except String KGResponse :=
  fun _ => .ok { itemListElement := none }

/-- A knowledge-graph oracle whose request raises. -/
def failKG : String → Except String KGResponse :=
  fun _ => .error "connection refused"

/-- An NLP oracle returning a fixed analysis. -/
def vertexOf (va : VertexAnalysis) : String → Except String VertexAnalysis :=
  fun _ => .ok va

/-- The `Paris` entity of the spec's worked example (salience 0.8). -/
def rawParis : RawEntity :=
  { name := "Paris", type_ := "LOCATION", salience := 0.8,
    metadata := [], mentions := [()] }

/-- The `Eiffel Tower` entity of the spec's worked example (salience 0.95). -/
def rawEiffel : RawEntity :=
  { name := "Eiffel Tower", type_ := "LOCATION", salience := 0.95,
    metadata := [], mentions := [(), ()] }

/-- A second raw instance named `Paris`, for duplicate-name scenarios. -/
def rawParisB : RawEntity :=
  { name := "Paris", type_ := "LOCATION", salience := 0.1,
    metadata := [], mentions := [()] }

/-- Analyzer output of the spec's worked example, no sentiment entities. -/
def vaExample : VertexAnalysis :=
  { entities := [rawParis, rawEiffel], entity_sentiment := [] }

/-- Analyzer output with a duplicated entity name (three instances, two
distinct names). -/
def vaDup : VertexAnalysis :=
  { entities := [rawParis, rawEiffel, rawParisB], entity_sentiment := [] }

/-- Analyzer output with no entities at all. -/
def vaEmpty : VertexAnalysis :=
  { entities := [], entity_sentiment := [] }

/-- Analyzer output with one entity and one sentiment entity. -/
def vaSent : VertexAnalysis :=
  { entities := [rawParis],
    entity_sentiment := [{ sentiment := { magnitude := 1.5, score := -0.25 } }] }

/-- The `EntityRecord` built from `rawParis` when the sentiment list is
empty and the knowledge-graph lookup returns no usable result. -/
def infoParis : EntityInfo :=
  { name := "Paris", type_ := "LOCATION", salience := 0.8,
    metadata := [], mentions := 1, sentiment := none, knowledge_graph := none }

/-- The `EntityRecord` built from `rawEiffel`, same conditions. -/
def infoEiffel : EntityInfo :=
  { name := "Eiffel Tower", type_ := "LOCATION", salience := 0.95,
    metadata := [], mentions := 2, sentiment := none, knowledge_graph := none }

/-- The `EntityRecord` built from `rawParisB`, same conditions. -/
def infoParisB : EntityInfo :=
  { name := "Paris", type_ := "LOCATION", salience := 0.1,
    metadata := [], mentions := 1, sentiment := none, knowledge_graph := none }

/-- The `analyze_content` result on `vaDup` with the `noKG` oracle. -/
def resDup : AnalysisResult :=
  { url := "https://example.com",
    entities_data := [infoParis, infoEiffel, infoParisB],
    entity_count := 2 }

/-- The `EntityRecord` built from `rawParis` when the sentiment list is
`vaSent.entity_sentiment`. -/
def infoParisSent : EntityInfo :=
  { name := "Paris", type_ := "LOCATION", salience := 0.8,
    metadata := [], mentions := 1,
    sentiment := some { magnitude := 1.5, score := -0.25 },
    knowledge_graph := none }

/-! ### Helper lemmas -/

theorem join_cons_str (x : String) (xs : List String) :
    String.join (x :: xs) = x ++ String.join xs := by
  cases x with
  | mk d => simp [String.join_eq]; rfl

theorem metadata_foldl (md : List (String × String)) (acc : String) :
    md.foldl (fun a kv => a ++ "  " ++ kv.1 ++ ": " ++ kv.2 ++ "\n") acc
      = acc ++ String.join (md.map fun kv => "  " ++ kv.1 ++ ": " ++ kv.2 ++ "\n") := by
  induction md generalizing acc with
  | nil => simp [String.join, String.append_empty]
  | cons kv tl ih =>
    rw [List.foldl_cons, ih, List.map_cons, join_cons_str]
    simp [String.append_assoc]

theorem mem_insertBySalience {e y : EntityInfo} {l : List EntityInfo}
    (h : y ∈ insertBySalience e l) : y = e ∨ y ∈ l := by
  induction l with
  | nil => simpa [insertBySalience] using h
  | cons x xs ih =>
    rw [insertBySalience] at h
    by_cases hx : x.salience ≤ e.salience
    · rw [if_pos hx] at h
      rcases List.mem_cons.1 h with h | h
      · exact Or.inl h
      · exact Or.inr h
    · rw [if_neg hx] at h
      rcases List.mem_cons.1 h with h | h
      · exact Or.inr (h ▸ List.mem_cons_self x xs)
      · rcases ih h with h' | h'
        · exact Or.inl h'
        · exact Or.inr (List.mem_cons_of_mem _ h')

theorem insertBySalience_pairwise {e : EntityInfo} {l : List EntityInfo}
    (hl : l.Pairwise (fun a b => b.salience ≤ a.salience)) :
    (insertBySalience e l).Pairwise (fun a b => b.salience ≤ a.salience) := by
  induction l with
  | nil => simp [insertBySalience]
  | cons x xs ih =>
    rw [List.pairwise_cons] at hl
    obtain ⟨hx_all, hxs⟩ := hl
    rw [insertBySalience]
    by_cases hx : x.salience ≤ e.salience
    · rw [if_pos hx, List.pairwise_cons]
      refine ⟨?_, List.pairwise_cons.2 ⟨hx_all, hxs⟩⟩
      intro y hy
      rcases List.mem_cons.1 hy with h | h
      · exact h ▸ hx
      · exact le_trans (hx_all y h) hx
    · rw [if_neg hx, List.pairwise_cons]
      refine ⟨?_, ih hxs⟩
      intro y hy
      rcases mem_insertBySalience hy with h | h
      · exact h ▸ le_of_lt (lt_of_not_le hx)
      · exact hx_all y h

theorem sortBySalience_pairwise (l : List EntityInfo) :
    (sortBySalience l).Pairwise (fun a b => b.salience ≤ a.salience) := by
  induction l with
  | nil => simp [sortBySalience]
  | cons x xs ih => exact insertBySalience_pairwise ih

theorem insertBySalience_perm (e : EntityInfo) (l : List EntityInfo) :
    List.Perm (insertBySalience e l) (e :: l) := by
  induction l with
  | nil => simp [insertBySalience]
  | cons x xs ih =>
    rw [insertBySalience]
    by_cases hx : x.salience ≤ e.salience
    · rw [if_pos hx]
    · rw [if_neg hx]
      exact (List.Perm.cons x ih).trans (List.Perm.swap e x xs)

theorem sortBySalience_perm (l : List EntityInfo) :
    List.Perm (sortBySalience l) l := by
  induction l with
  | nil => simp [sortBySalience]
  | cons x xs ih =>
    exact (insertBySalience_perm x (sortBySalience xs)).trans (List.Perm.cons x ih)

theorem insertBySalience_filter (e : EntityInfo) (l : List EntityInfo) (s : ℚ) :
    (insertBySalience e l).filter (fun a => decide (a.salience = s))
      = if e.salience = s
        then e :: l.filter (fun a => decide (a.salience = s))
        else l.filter (fun a => decide (a.salience = s)) := by
  induction l with
  | nil =>
    by_cases he : e.salience = s <;> simp [insertBySalience, he]
  | cons x xs ih =>
    rw [insertBySalience]
    by_cases hx : x.salience ≤ e.salience
    · rw [if_pos hx]
      by_cases he : e.salience = s <;> simp [he, List.filter_cons]
    · rw [if_neg hx]
      by_cases he : e.salience = s
      · have hxs : ¬ x.salience = s := by
          intro hxe
          exact hx (by rw [hxe, ← he])
        simp [List.filter_cons, hxs, ih, he]
      · simp [List.filter_cons, ih, he]

theorem sortBySalience_filter (l : List EntityInfo) (s : ℚ) :
    (sortBySalience l).filter (fun a => decide (a.salience = s))
      = l.filter (fun a => decide (a.salience = s)) := by
  induction l with
  | nil => simp [sortBySalience]
  | cons x xs ih =>
    rw [sortBySalience, insertBySalience_filter]
    by_cases hx : x.salience = s <;> simp [List.filter_cons, hx, ih]

theorem processEntities_ok_spec (kg : String → Except String KGResponse)
    (sentimentEntities : List SentimentEntity) :
    ∀ (es : List RawEntity) (infos : List EntityInfo) (found : Finset String),
      processEntities kg sentimentEntities es = .ok (infos, found) →
      infos.length = es.length ∧
      found = (es.map RawEntity.name).toFinset ∧
      infos.map EntityInfo.salience = es.map RawEntity.salience ∧
      infos.map EntityInfo.name = es.map RawEntity.name ∧
      ∀ i ∈ infos,
        i.sentiment =
          match sentimentEntities with
          | s0 :: _ => some s0.sentiment
          | [] => none := by
  intro es
  induction es with
  | nil =>
    intro infos found h
    rw [processEntities] at h
    simp only [Except.ok.injEq, Prod.mk.injEq] at h
    obtain ⟨h1, h2⟩ := h
    subst h1; subst h2
    simp
  | cons e rest ih =>
    intro infos found h
    simp only [processEntities] at h
    cases hkg : query_knowledge_graph kg e.name with
    | error msg => rw [hkg] at h; simp at h
    | ok kg_result =>
      rw [hkg] at h
      simp only [] at h
      cases hrec : processEntities kg sentimentEntities rest with
      | error msg => rw [hrec] at h; simp at h
      | ok p =>
        obtain ⟨restInfos, restFound⟩ := p
        rw [hrec] at h
        simp only [Except.ok.injEq, Prod.mk.injEq] at h
        obtain ⟨h1, h2⟩ := h
        subst h1; subst h2
        obtain ⟨ihl, ihf, ihs, ihn, ihsent⟩ := ih restInfos restFound hrec
        refine ⟨by simp [ihl], by simp [ihf], by simp [ihs], by simp [ihn], ?_⟩
        intro i hi
        rcases List.mem_cons.1 hi with h | h
        · subst h; rfl
        · exact ihsent i h

theorem processEntities_kg_absent (kg : String → Except String KGResponse)
    (sentimentEntities : List SentimentEntity)
    (hkg : ∀ n r, kg n = .ok r → kgExtract r = none) :
    ∀ (es : List RawEntity) (infos : List EntityInfo) (found : Finset String),
      processEntities kg sentimentEntities es = .ok (infos, found) →
      ∀ i ∈ infos, i.knowledge_graph = none := by
  intro es
  induction es with
  | nil =>
    intro infos found h
    rw [processEntities] at h
    simp only [Except.ok.injEq, Prod.mk.injEq] at h
    obtain ⟨h1, _⟩ := h
    subst h1
    simp
  | cons e rest ih =>
    intro infos found h
    simp only [processEntities] at h
    cases hq : query_knowledge_graph kg e.name with
    | error msg => rw [hq] at h; simp at h
    | ok kg_result =>
      rw [hq] at h
      simp only [] at h
      cases hrec : processEntities kg sentimentEntities rest with
      | error msg => rw [hrec] at h; simp at h
      | ok p =>
        obtain ⟨restInfos, restFound⟩ := p
        rw [hrec] at h
        simp only [Except.ok.injEq, Prod.mk.injEq] at h
        obtain ⟨h1, _⟩ := h
        subst h1
        intro i hi
        rcases List.mem_cons.1 hi with hh | hh
        · subst hh
          exact hkg e.name kg_result hq
        · exact ih restInfos restFound hrec i hh

theorem processEntities_total (kg : String → Except String KGResponse)
    (sentimentEntities : List SentimentEntity)
    (hkg : ∀ n, ∃ r, kg n = .ok r) :
    ∀ es : List RawEntity, ∃ infos found,
      processEntities kg sentimentEntities es = .ok (infos, found) := by
  intro es
  induction es with
  | nil => exact ⟨[], ∅, rfl⟩
  | cons e rest ih =>
    obtain ⟨r, hr⟩ := hkg e.name
    obtain ⟨restInfos, restFound, hrec⟩ := ih
    cases hres : processEntities kg sentimentEntities (e :: rest) with
    | ok p => exact ⟨p.1, p.2, by simp [hres]⟩
    | error msg =>
      exfalso
      have hq : query_knowledge_graph kg e.name = .ok r := hr
      simp only [processEntities, hq, hrec] at hres
      exact absurd hres (by simp)

/-- Distinct names are fewer than instances as soon as a name repeats. -/
theorem card_toFinset_lt_of_not_nodup (l : List String) (h : ¬ l.Nodup) :
    l.toFinset.card < l.length := by
  rw [List.card_toFinset]
  rcases Nat.lt_or_ge l.dedup.length l.length with hlt | hge
  · exact hlt
  · exfalso
    have hsub := List.dedup_sublist l
    have heq : l.dedup = l := hsub.eq_of_length (le_antisymm hsub.length_le hge)
    exact h (heq ▸ l.nodup_dedup)

/-! ### Claims -/

/-- C1: In the rendered report, entities appear in non-increasing order of
salience, and entities with equal salience appear in the order the analyzer
returned them (the sort on `entities_data` is stable: for every salience
value, filtering the sorted list down to that value preserves the original
sequence); in particular, for analyzer output
`[Paris (salience 0.8), Eiffel Tower (salience 0.95)]` the report lists
`Eiffel Tower` before `Paris`. -/
theorem C1_report_order_stable :
    (∀ l : List EntityInfo,
        (sortBySalience l).Pairwise (fun a b => b.salience ≤ a.salience) ∧
        ∀ s : ℚ,
          (sortBySalience l).filter (fun a => decide (a.salience = s))
            = l.filter (fun a => decide (a.salience = s))) ∧
    (sortBySalience [infoParis, infoEiffel]).map EntityInfo.name
      = ["Eiffel Tower", "Paris"] := by
  refine ⟨fun l => ⟨sortBySalience_pairwise l, sortBySalience_filter l⟩, ?_⟩
  norm_num [sortBySalience, insertBySalience, infoParis, infoEiffel]

/-- C2: for every analyzer response (duplicate entity names included), the
entity count in the report header equals the number of distinct entity
names returned by the analyzer. -/
theorem C2_count_is_distinct_names
    (fetch : String → Except String String)
    (vertex : String → Except String VertexAnalysis)
    (kg : String → Except String KGResponse)
    (url content : String) (va : VertexAnalysis) (res : AnalysisResult)
    (hc : extract_content fetch url = .ok content)
    (hv : vertex content = .ok va)
    (h : analyze_content fetch vertex kg url = .ok res) :
    res.entity_count = (va.entities.map RawEntity.name).toFinset.card := by
  simp only [analyze_content, hc, hv] at h
  cases hpe : processEntities kg va.entity_sentiment va.entities with
  | error msg => rw [hpe] at h; simp at h
  | ok p =>
    obtain ⟨infos, found⟩ := p
    rw [hpe] at h
    simp only [Except.ok.injEq] at h
    have hf := (processEntities_ok_spec kg va.entity_sentiment
      va.entities infos found hpe).2.1
    rw [← h]
    simp [hf]

/-- C2 witness: a concrete run with a duplicated name (`Paris` twice,
`Eiffel Tower` once) reports 2 distinct entities. -/
theorem C2_count_is_distinct_names_witness :
    resDup.entity_count = (vaDup.entities.map RawEntity.name).toFinset.card :=
  C2_count_is_distinct_names okFetch (vertexOf vaDup) noKG
    "https://example.com" "page text" vaDup resDup rfl rfl rfl

/-- C3: if the sentiment response's entity list is empty, every produced
record has no sentiment; if it is non-empty, every record's sentiment is
taken from the first slot of that list, whichever entity is processed. -/
theorem C3_sentiment_from_first_slot
    (kg : String → Except String KGResponse)
    (sentimentEntities : List SentimentEntity)
    (es : List RawEntity) (infos : List EntityInfo) (found : Finset String)
    (h : processEntities kg sentimentEntities es = .ok (infos, found)) :
    (sentimentEntities = [] → ∀ i ∈ infos, i.sentiment = none) ∧
    (∀ s0 rest, sentimentEntities = s0 :: rest →
        ∀ i ∈ infos, i.sentiment = some s0.sentiment) := by
  have hs := (processEntities_ok_spec kg sentimentEntities
    es infos found h).2.2.2.2
  constructor
  · intro he i hi
    have hx := hs i hi
    rw [he] at hx
    simpa using hx
  · intro s0 rest he i hi
    have hx := hs i hi
    rw [he] at hx
    simpa using hx

/-- C3 witness: with one sentiment entity in slot 0, the record built for
`Paris` carries exactly that sentiment. -/
theorem C3_sentiment_from_first_slot_witness :
    infoParisSent.sentiment = some { magnitude := 1.5, score := -0.25 } :=
  (C3_sentiment_from_first_slot noKG vaSent.entity_sentiment
      vaSent.entities [infoParisSent] (insert "Paris" ∅) rfl).2
    { sentiment := { magnitude := 1.5, score := -0.25 } } [] rfl
    infoParisSent (by simp)

/-- C4 counterexample: the claim says a failed lookup is never fatal, but a
knowledge-graph lookup that raises (here, a connection failure on the
second entity's lookup) propagates out of `analyze_content` and aborts the
whole run — `query_knowledge_graph` and the enrichment loop have no
exception handler. -/
theorem C4_counterexample :
    main okFetch (vertexOf vaExample) failKG "https://example.com"
      = .error "connection refused" := rfl

/-- C4 (amended): a knowledge-base lookup that completes with a response
carrying no usable result (no `itemListElement`, an empty one, or no
`result` field) is never fatal: the entity is still included, its
knowledge-graph field stays absent, and processing continues with the
remaining entities; a lookup that raises, however, aborts the run. -/
theorem C4_resultless_lookup_nonfatal
    (kg : String → Except String KGResponse)
    (sentimentEntities : List SentimentEntity) (es : List RawEntity)
    (hkg : ∀ n, ∃ r, kg n = .ok r ∧ kgExtract r = none) :
    (processEntities kg sentimentEntities es).isOk = true ∧
    ∀ infos found,
      processEntities kg sentimentEntities es = .ok (infos, found) →
      infos.length = es.length ∧ ∀ i ∈ infos, i.knowledge_graph = none := by
  have hok : ∀ n, ∃ r, kg n = .ok r := fun n => (hkg n).imp fun r hr => hr.1
  have habs : ∀ n r, kg n = .ok r → kgExtract r = none := by
    intro n r hr
    obtain ⟨r', hr', hex⟩ := hkg n
    rw [hr] at hr'
    injection hr' with hrr
    exact hrr ▸ hex
  constructor
  · obtain ⟨infos, found, hp⟩ :=
      processEntities_total kg sentimentEntities hok es
    rw [hp]
    rfl
  · intro infos found hp
    exact ⟨(processEntities_ok_spec kg sentimentEntities es infos found hp).1,
      processEntities_kg_absent kg sentimentEntities habs es infos found hp⟩

/-- C4 witness: with an oracle always answering a body with no
`itemListElement`, processing two entities succeeds. -/
theorem C4_resultless_lookup_nonfatal_witness :
    (processEntities noKG [] [rawParis, rawEiffel]).isOk = true :=
  (C4_resultless_lookup_nonfatal noKG [] [rawParis, rawEiffel]
    fun _ => ⟨{ itemListElement := none }, rfl, rfl⟩).1

/-- C5: if the fetch of the URL fails, the run raises the wrapped fetch
error, which propagates to the top level; `main` returns `.error` before
the output file is opened, so no partial report is produced. -/
theorem C5_fetch_error_aborts
    (fetch : String → Except String String)
    (vertex : String → Except String VertexAnalysis)
    (kg : String → Except String KGResponse)
    (url msg : String)
    (h : fetch url = .error msg) :
    main fetch vertex kg url
      = .error ("Error extracting content from URL: " ++ msg) := by
  simp only [main, analyze_content, extract_content, h]

/-- C5 witness: an unreachable host aborts the run with the wrapped
message and no report is written. -/
theorem C5_fetch_error_aborts_witness :
    main badFetch (vertexOf vaExample) noKG "https://down.example"
      = .error ("Error extracting content from URL: " ++ "unreachable host") :=
  C5_fetch_error_aborts badFetch (vertexOf vaExample) noKG
    "https://down.example" "unreachable host" rfl

/-- C6: each entity's report block is the name, type, salience to 4 decimal
places and mention count, then — only if sentiment is present — the two
sentiment lines to 2 decimal places, then — only if metadata is non-empty —
the metadata key/value lines, then — only if a knowledge-graph result is
present — the `Knowledge Graph Information` section with its description,
type and detailed-description lines (each when present), then the
separator; an entity without sentiment omits the sentiment lines entirely
and one without a knowledge-graph result omits that whole section. -/
theorem C6_block_layout (entity : EntityInfo) (acc : String) :
    writeEntity acc entity =
      acc ++ ("\nEntity: " ++ entity.name ++ "\n"
        ++ "Type: " ++ entity.type_ ++ "\n"
        ++ "Salience Score: " ++ formatFixed entity.salience 4 ++ "\n"
        ++ "Number of Mentions: " ++ toString entity.mentions ++ "\n")
      ++ (match entity.sentiment with
          | some s =>
            "Sentiment Score: " ++ formatFixed s.score 2 ++ "\n"
              ++ "Sentiment Magnitude: " ++ formatFixed s.magnitude 2 ++ "\n"
          | none => "")
      ++ (match entity.metadata with
          | [] => ""
          | _ => "Metadata:\n"
              ++ String.join (entity.metadata.map
                  fun kv => "  " ++ kv.1 ++ ": " ++ kv.2 ++ "\n"))
      ++ (match entity.knowledge_graph with
          | some kg_info =>
            "Knowledge Graph Information:\n"
              ++ (match kg_info.description with
                  | some d => "  Description: " ++ d ++ "\n"
                  | none => "")
              ++ (match kg_info.atType with
                  | some t => "  Type: " ++ t ++ "\n"
                  | none => "")
              ++ (match kg_info.detailedDescription with
                  | some a => "  Detailed Description: " ++ a ++ "\n"
                  | none => "")
          | none => "")
      ++ String.mk (List.replicate 40 '-') ++ "\n" := by
  obtain ⟨n, t, sal, md, men, sent, kgo⟩ := entity
  rcases sent with _ | s <;> rcases md with _ | ⟨kv, tl⟩ <;>
    rcases kgo with _ | ⟨d, ty, dd⟩
  all_goals try (rcases d with _ | d <;> rcases ty with _ | ty <;>
    rcases dd with _ | dd)
  all_goals simp only [writeEntity]
  all_goals try simp only [metadata_foldl]
  all_goals simp only [String.append_assoc, String.append_empty,
    String.empty_append]

/-- C7: the report builder is deterministic — two analysis results with the
same URL, the same entity records in the same order and the same count
render to the identical report text. -/
theorem C7_report_deterministic (r₁ r₂ : AnalysisResult)
    (hu : r₁.url = r₂.url)
    (he : r₁.entities_data = r₂.entities_data)
    (hc : r₁.entity_count = r₂.entity_count) :
    writeReport r₁ = writeReport r₂ := by
  have hr : r₁ = r₂ := by
    obtain ⟨u₁, d₁, c₁⟩ := r₁
    obtain ⟨u₂, d₂, c₂⟩ := r₂
    dsimp only at hu he hc
    rw [hu, he, hc]
  rw [hr]

/-- C7 witness: the concrete duplicate-name result renders identically to
itself. -/
theorem C7_report_deterministic_witness :
    writeReport resDup = writeReport resDup :=
  C7_report_deterministic resDup resDup rfl rfl rfl

/-- C8: salience values are never mutated after a record is created: the
records produced by the enrichment loop carry exactly the analyzer's
salience values, and the render-time sort only permutes the (unchanged)
records. -/
theorem C8_salience_never_mutated :
    (∀ (kg : String → Except String KGResponse)
        (sentimentEntities : List SentimentEntity)
        (es : List RawEntity) (infos : List EntityInfo)
        (found : Finset String),
        processEntities kg sentimentEntities es = .ok (infos, found) →
        infos.map EntityInfo.salience = es.map RawEntity.salience) ∧
    ∀ l : List EntityInfo, List.Perm (sortBySalience l) l :=
  ⟨fun kg s es infos found h =>
      (processEntities_ok_spec kg s es infos found h).2.2.1,
    sortBySalience_perm⟩

/-- C8 witness: the three records built from `vaDup` keep saliences
0.8, 0.95, 0.1 in order. -/
theorem C8_salience_never_mutated_witness :
    [infoParis, infoEiffel, infoParisB].map EntityInfo.salience
      = vaDup.entities.map RawEntity.salience :=
  C8_salience_never_mutated.1 noKG vaDup.entity_sentiment vaDup.entities
    [infoParis, infoEiffel, infoParisB]
    (insert "Paris" (insert "Eiffel Tower" (insert "Paris" ∅))) rfl

/-- C9: the report carries exactly one block per entity instance in the raw
analyzer list (even under duplicate names), so with duplicate names the
number of blocks strictly exceeds the distinct-name count in the header. -/
theorem C9_block_per_instance
    (fetch : String → Except String String)
    (vertex : String → Except String VertexAnalysis)
    (kg : String → Except String KGResponse)
    (url content : String) (va : VertexAnalysis) (res : AnalysisResult)
    (hc : extract_content fetch url = .ok content)
    (hv : vertex content = .ok va)
    (h : analyze_content fetch vertex kg url = .ok res) :
    res.entities_data.length = va.entities.length ∧
    (¬ (va.entities.map RawEntity.name).Nodup →
      res.entity_count < res.entities_data.length) := by
  simp only [analyze_content, hc, hv] at h
  cases hpe : processEntities kg va.entity_sentiment va.entities with
  | error msg => rw [hpe] at h; simp at h
  | ok p =>
    obtain ⟨infos, found⟩ := p
    rw [hpe] at h
    simp only [Except.ok.injEq] at h
    obtain ⟨hl, hf, -, -, -⟩ := processEntities_ok_spec kg
      va.entity_sentiment va.entities infos found hpe
    constructor
    · rw [← h]
      simpa using hl
    · intro hnd
      rw [← h]
      have hlt := card_toFinset_lt_of_not_nodup
        (va.entities.map RawEntity.name) hnd
      rw [List.length_map] at hlt
      simpa [hf, hl] using hlt

/-- C9 witness: on the duplicate-name run, the report has 3 blocks while
the header counts 2 entities. -/
theorem C9_block_per_instance_witness :
    resDup.entity_count < resDup.entities_data.length :=
  (C9_block_per_instance okFetch (vertexOf vaDup) noKG
    "https://example.com" "page text" vaDup resDup rfl rfl rfl).2 (by decide)

/-- C10: when the analyzer returns no entities, the run still succeeds and
the report file consists of the URL header, the `Total Entities Found: 0`
line and the detailed-analysis header, with no entity blocks after it. -/
theorem C10_empty_entity_list
    (fetch : String → Except String String)
    (vertex : String → Except String VertexAnalysis)
    (kg : String → Except String KGResponse)
    (url content : String) (va : VertexAnalysis)
    (hc : extract_content fetch url = .ok content)
    (hv : vertex content = .ok va)
    (he : va.entities = []) :
    main fetch vertex kg url
      = .ok ("Analysis Results for " ++ url ++ "\n"
          ++ String.mk (List.replicate 50 '=') ++ "\n\n"
          ++ "Total Entities Found: 0\n\n"
          ++ "Detailed Entity Analysis:\n"
          ++ String.mk (List.replicate 50 '=') ++ "\n") := by
  simp only [main, analyze_content, hc, hv, he, processEntities,
    writeReport, sortBySalience, List.foldl_nil, Finset.card_empty]
  simp only [String.empty_append, String.append_assoc, Except.ok.injEq]
  congr 1

/-- C10 witness: a concrete empty-analysis run writes exactly the
header-only report. -/
theorem C10_empty_entity_list_witness :
    main okFetch (vertexOf vaEmpty) noKG "https://example.com"
      = .ok ("Analysis Results for " ++ "https://example.com" ++ "\n"
          ++ String.mk (List.replicate 50 '=') ++ "\n\n"
          ++ "Total Entities Found: 0\n\n"
          ++ "Detailed Entity Analysis:\n"
          ++ String.mk (List.replicate 50 '=') ++ "\n") :=
  C10_empty_entity_list okFetch (vertexOf vaEmpty) noKG
    "https://example.com" "page text" vaEmpty rfl rfl rfl

end EntityPy
